import Mathlib

/-!
Verification of the dvbase-mcp-server request-authentication and
session-routing layer.

The definitions below are a shallow embedding of the TypeScript sources:
* `src/index.ts` — bearer-token entry point (auth middleware, session map,
  MCP request handler, DELETE handler, health endpoint);
* the secret-path entry point (IP allowlist, secret route, catch-all 404,
  startup validation of `MCP_SECRET_PATH`);
* `src/context-store.ts` — cached documentation lookup;
* `src/server.ts` — the `get_context` tool handler.

JavaScript machine arithmetic (32-bit signed/unsigned coercions used by the
bitwise operators) is modelled explicitly on `Int`/`Nat`.  String operations
(`split`, `startsWith`, `slice`, `trim`, …) act on UTF-16 code units in JS;
all constants involved here are ASCII, where code units and characters
coincide, so they are modelled on the character list `String.data`.  The
list-level formulation is chosen over the `String`-level one so that every
definition reduces inside the kernel.
-/

/-! ## String helpers (character-list level) -/

/-- Auxiliary worker for `jsSplitChar`: `acc` holds the characters of the
current chunk in reverse order. -/
def jsSplitCharAux (sep : Char) : List Char → List Char → List String
  | [], acc => [String.mk acc.reverse]
  | c :: rest, acc =>
    if c = sep then String.mk acc.reverse :: jsSplitCharAux sep rest []
    else jsSplitCharAux sep rest (c :: acc)

/-- JS `s.split(sep)` for a one-character separator: `"a.b" ↦ ["a","b"]`,
`"" ↦ [""]`, `".a." ↦ ["", "a", ""]`. -/
def jsSplitChar (sep : Char) (s : String) : List String :=
  jsSplitCharAux sep s.data []

/-- JS `s.startsWith(pre)` (ASCII prefix). -/
def jsStartsWith (s pre : String) : Bool := pre.data.isPrefixOf s.data

/-- JS `s.slice(n)` / the tail after an `n`-code-unit prefix. -/
def jsDrop (s : String) (n : Nat) : String := String.mk (s.data.drop n)

/-- JS `s.toLowerCase()` (ASCII-faithful). -/
def jsToLower (s : String) : String := String.mk (s.data.map Char.toLower)

/-- Decimal digit accumulator for `jsNumber`. -/
def digitsToNat (cs : List Char) : Nat :=
  cs.foldl (fun n c => n * 10 + (c.toNat - 48)) 0

/-! ## JavaScript numeric semantics

JS bitwise operators convert their operands with `ToInt32`/`ToUint32`
(ECMA-262): the operand is reduced modulo 2^32 and, for `ToInt32`,
reinterpreted as a signed 32-bit value.  `NaN` converts to `0`. -/

/-- `ToUint32`: the operand modulo 2^32, as a natural number. -/
def toUint32 (x : Int) : Nat := (x % 4294967296).toNat

/-- `ToInt32`: the operand modulo 2^32, reinterpreted in `[-2^31, 2^31)`. -/
def toInt32 (x : Int) : Int :=
  let u : Nat := toUint32 x
  if u < 2147483648 then (u : Int) else (u : Int) - 4294967296

/-- JS `a << n` for a constant shift `n`: `ToInt32` the operand, shift,
reinterpret as signed 32-bit. -/
def jsShl (a : Int) (n : Nat) : Int := toInt32 (toInt32 a * 2 ^ n)

/-- JS `a | b`: bitwise or on the 32-bit patterns, result signed 32-bit. -/
def jsOr (a b : Int) : Int := toInt32 (Nat.lor (toUint32 a) (toUint32 b) : Nat)

/-- JS `a & b`: bitwise and on the 32-bit patterns, result signed 32-bit. -/
def jsAnd (a b : Int) : Int := toInt32 (Nat.land (toUint32 a) (toUint32 b) : Nat)

/-- JS `Number(s)` restricted to the shapes that occur in dotted-quad
addresses: the empty string is `0`, a string of decimal digits is its value,
anything else is `NaN` (encoded as `none`; every consumer below is a bitwise
operator, for which `NaN` behaves as `0`). -/
def jsNumber (s : String) : Option Int :=
  if s = "" then some 0
  else if s.data.all Char.isDigit then some (digitsToNat s.data) else none

/-! ## IP allowlist (secret-path entry point)

Embedding of `ANTHROPIC_IP_RANGES`, `ipToInt`, `isAnthropicIp` and
`ipWhitelistMiddleware`.  The literals `0xA04F6800` and `0xFFFFF800` are JS
number literals and therefore *positive* values. -/

/-- `ANTHROPIC_IP_RANGES.primary.network = 0xA04F6800` (a positive literal). -/
def anthropicPrimaryNetwork : Int := 0xA04F6800

/-- `ANTHROPIC_IP_RANGES.primary.mask = 0xFFFFF800` (a positive literal). -/
def anthropicPrimaryMask : Int := 0xFFFFF800

/-- `ANTHROPIC_IP_RANGES.legacy`. -/
def anthropicLegacyIps : List String :=
  ["34.162.46.92", "34.162.102.82", "34.162.136.91", "34.162.142.92",
   "34.162.183.95"]

/-- `ipToInt`: split on `"."`, convert each part with `Number`, combine with
`(p0 << 24) | (p1 << 16) | (p2 << 8) | p3`, then `>>> 0`.  A missing part is
`undefined`, which the bitwise operators also treat as `0`. -/
def ipToInt (ip : String) : Int :=
  let parts : List (Option Int) := (jsSplitChar '.' ip).map jsNumber
  let part : Nat → Int := fun i =>
    match parts.get? i with
    | some (some n) => n
    | some none => 0
    | none => 0
  (toUint32 (jsOr (jsOr (jsOr (jsShl (part 0) 24) (jsShl (part 1) 16))
      (jsShl (part 2) 8)) (part 3)) : Int)

/-- `isAnthropicIp`, parameterised by the module constant
`IP_WHITELIST_ENABLED`.  The anchored regex replace of `::ffff:` is a
prefix strip. -/
def isAnthropicIp (whitelistEnabled : Bool) (ip : String) : Bool :=
  let cleanIp := if jsStartsWith ip "::ffff:" then jsDrop ip 7 else ip
  if cleanIp = "127.0.0.1" ∨ cleanIp = "::1" ∨ cleanIp = "localhost" then
    !whitelistEnabled
  else
    let ipInt := ipToInt cleanIp
    if jsAnd ipInt anthropicPrimaryMask = anthropicPrimaryNetwork then true
    else if anthropicLegacyIps.contains cleanIp then true
    else false

/-- HTTP status of the rejection issued by `ipWhitelistMiddleware`. -/
def forbiddenStatus : Nat := 403

/-- `ipWhitelistMiddleware`: `none` means `next()` (request passes on to the
handler); `some 403` means the request was rejected with the forbidden
envelope (code `-32001`). -/
def ipWhitelistMiddleware (whitelistEnabled : Bool) (clientIp : String) :
    Option Nat :=
  if !whitelistEnabled then none
  else if isAnthropicIp whitelistEnabled clientIp then none
  else some forbiddenStatus

/-! ## JSON values

A small model of the JavaScript values that flow through the request
handlers.  `Option JsValue` stands for a possibly-`undefined` value
(`none` = `undefined`). -/

/-- JSON-ish JavaScript values. -/
inductive JsValue where
  | jsNull
  | jsBool (b : Bool)
  | jsNum (n : Int)
  | jsStr (s : String)
  | jsArr (elems : List JsValue)
  | jsObj (fields : List (String × JsValue))

open JsValue

/-- JS truthiness of a defined value. -/
def truthyV : JsValue → Bool
  | jsNull => false
  | jsBool b => b
  | jsNum n => decide (n ≠ 0)
  | jsStr s => decide (s ≠ "")
  | jsArr _ => true
  | jsObj _ => true

/-- JS truthiness of a possibly-`undefined` value. -/
def truthy : Option JsValue → Bool
  | none => false
  | some v => truthyV v

/-- Property access `v.k`: `undefined` on non-objects and missing keys. -/
def getField : JsValue → String → Option JsValue
  | jsObj fields, k => fields.lookup k
  | _, _ => none

/-- Optional-chained property access `v?.k`. -/
def getFieldO (v : Option JsValue) (k : String) : Option JsValue :=
  v.bind (fun w => getField w k)

/-! ## Bearer-token auth middleware (`index.ts`, `authMiddleware`) -/

/-- Outcome of the auth middleware: `next()` or one of the two rejections. -/
inductive AuthOutcome where
  | allow
  | unauthorized401
  | forbidden403
deriving DecidableEq, Repr

/-- The token extraction `authHeader.startsWith("Bearer ") ?
authHeader.slice(7) : authHeader`, on the character level (the prefix is
ASCII, so UTF-16 code units and characters agree). -/
def stripBearer (h : String) : String :=
  if "Bearer ".data.isPrefixOf h.data then String.mk (h.data.drop 7) else h

/-- `authMiddleware`, parameterised by the module constant `MCP_AUTH_TOKEN`
(`""` when the variable is unset) and the request's `Authorization` header
(`none` when absent). -/
def authMiddleware (mcpAuthToken : String) (authHeader : Option String) :
    AuthOutcome :=
  if mcpAuthToken = "" then .allow
  else
    match authHeader with
    | none => .unauthorized401
    | some h =>
      let token := stripBearer h
      if token ≠ mcpAuthToken then .forbidden403 else .allow

/-- HTTP status and JSON-RPC error code written for each rejection
(`401`/`-32001` for a missing header, `403`/`-32001` for a wrong token). -/
def authHttpResponse : AuthOutcome → Option (Nat × Int)
  | .allow => none
  | .unauthorized401 => some (401, -32001)
  | .forbidden403 => some (403, -32001)

/-! ## Protocol session manager (`handleMcpRequest` in both entry points) -/

/-- HTTP request methods that reach the MCP routes. -/
inductive Method where
  | post
  | get
  | delete
  | put
deriving DecidableEq, Repr

/-- One entry of the `transports` map, together with the identity of the
transport object, the identity of the Tool Registry (`McpServer`) instance
connected to it, and whether an `onclose` callback was installed. -/
structure SessionEntry where
  sid : String
  transportId : Nat
  registryId : Nat
  hasCloseHook : Bool
deriving DecidableEq, Repr

/-- The mutable module state of an entry point: the `transports` map plus
allocation counters giving fresh identities to newly constructed transport
and registry objects. -/
structure McpState where
  sessions : List SessionEntry
  nextTransport : Nat
  nextRegistry : Nat
deriving DecidableEq, Repr

/-- The initial state: empty `transports` map. -/
def initialMcpState : McpState := ⟨[], 0, 0⟩

/-- `body?.method === "initialize" || (Array.isArray(body) &&
body.some(msg => msg.method === "initialize"))`. -/
def isInitialize (body : Option JsValue) : Bool :=
  (match getFieldO body "method" with
   | some (jsStr s) => s == "initialize"
   | _ => false) ||
  (match body with
   | some (jsArr msgs) =>
     msgs.any (fun msg =>
       match getField msg "method" with
       | some (jsStr s) => s == "initialize"
       | _ => false)
   | _ => false)

/-- The error envelope id `body?.id || null`: any falsy id (absent, `null`,
`0`, `""`, `false`) collapses to `null`. -/
def idEcho (body : Option JsValue) : JsValue :=
  match getFieldO body "id" with
  | some v => if truthyV v then v else jsNull
  | none => jsNull

/-- What a call of `handleMcpRequest` does with the request. -/
inductive McpOutcome where
  | forwarded (sid : String)
  | initialized (newSid : Option String)
  | noSession (respId : JsValue)

/-- `handleMcpRequest` of the secret-path entry point.  `reported` is the
value of `transport.sessionId` after the transport handled the initialize
request (assigned inside the SDK, hence an environment parameter).  A fresh
transport gets identity `st.nextTransport`, and `createServer()` constructs
a fresh Tool Registry with identity `st.nextRegistry`. -/
def handleMcpRequestSecretPath (st : McpState) (method : Method)
    (header : Option String) (body : Option JsValue)
    (reported : Option String) : McpOutcome × McpState :=
  let noSessionCase : Unit → McpOutcome × McpState := fun _ =>
    if isInitialize body && (method == Method.post) then
      match reported with
      | some newSid =>
        (.initialized (some newSid),
         { sessions := st.sessions ++
             [⟨newSid, st.nextTransport, st.nextRegistry, true⟩],
           nextTransport := st.nextTransport + 1,
           nextRegistry := st.nextRegistry + 1 })
      | none =>
        (.initialized none,
         { st with nextTransport := st.nextTransport + 1,
                   nextRegistry := st.nextRegistry + 1 })
    else (.noSession (idEcho body), st)
  match header with
  | some sid =>
    if st.sessions.any (fun e => e.sid == sid) then (.forwarded sid, st)
    else noSessionCase ()
  | none => noSessionCase ()

/-- The identity of the single module-level `server` object that
`index.ts` imports and connects to every new transport. -/
def bearerSharedRegistryId : Nat := 0

/-- `handleMcpRequest` of the bearer-token entry point (`index.ts`):
identical to the secret-path variant except that `server.connect(transport)`
binds the one shared module-level Tool Registry instance instead of a fresh
`createServer()` result. -/
def handleMcpRequest (st : McpState) (method : Method)
    (header : Option String) (body : Option JsValue)
    (reported : Option String) : McpOutcome × McpState :=
  let noSessionCase : Unit → McpOutcome × McpState := fun _ =>
    if isInitialize body && (method == Method.post) then
      match reported with
      | some newSid =>
        (.initialized (some newSid),
         { sessions := st.sessions ++
             [⟨newSid, st.nextTransport, bearerSharedRegistryId, true⟩],
           nextTransport := st.nextTransport + 1,
           nextRegistry := st.nextRegistry })
      | none =>
        (.initialized none,
         { st with nextTransport := st.nextTransport + 1 })
    else (.noSession (idEcho body), st)
  match header with
  | some sid =>
    if st.sessions.any (fun e => e.sid == sid) then (.forwarded sid, st)
    else noSessionCase ()
  | none => noSessionCase ()

/-! ## DELETE handler (identical in both entry points) -/

/-- Outcome of the `app.delete` handler. -/
inductive DeleteOutcome where
  | handledByTransport (sid : String)
  | invalidSession
deriving DecidableEq, Repr

/-- The `app.delete` route handler: a known `mcp-session-id` lets the
transport handle the teardown and then removes the map entry; otherwise a
`400` is returned and the state is untouched. -/
def handleDeleteRequest (st : McpState) (header : Option String) :
    DeleteOutcome × McpState :=
  match header with
  | some sid =>
    if st.sessions.any (fun e => e.sid == sid) then
      (.handledByTransport sid,
       { st with sessions := st.sessions.filter (fun e => !(e.sid == sid)) })
    else (.invalidSession, st)
  | none => (.invalidSession, st)

/-- The HTTP response written by the DELETE handler itself (`none` when the
transport produced the response). -/
def deleteHttpResponse : DeleteOutcome → Option (Nat × JsValue)
  | .handledByTransport _ => none
  | .invalidSession => some (400, jsObj [("error", jsStr "Invalid or missing session ID")])

/-! ## Route table of the secret-path entry point

Express matches routes in registration order: the three methods on
`/mcp/<MCP_SECRET_PATH>`, then `app.all("/mcp")`, then `app.all("/mcp/*")`,
then `GET /health`.  A request path is modelled as its list of segments
(`"/mcp/x"` is `["mcp", "x"]`). -/

/-- Where a request is dispatched by the secret-path entry point. -/
inductive RouteResult where
  | mcpPost
  | mcpGet
  | mcpDelete
  | resp (status : Nat) (body : JsValue)
  | healthEndpoint
  | expressDefault

/-- The body of the catch-all responses on `/mcp` and `/mcp/*`. -/
def notFoundBody : JsValue := jsObj [("error", jsStr "Not found")]

/-- The route table of the secret-path entry point, tried in registration
order.  Express matches paths *case-insensitively* by default (neither
entry point enables `case sensitive routing`), modelled by comparing the
lowercased path segments with the lowercased route pattern.
`mcpPost`/`mcpGet`/`mcpDelete` mean: the request proceeds into
`ipWhitelistMiddleware` and then the corresponding handler. -/
def routeRequest (secret : String) (m : Method) (path : List String) :
    RouteResult :=
  if path.map jsToLower = ["mcp", secret].map jsToLower ∧ m = Method.post then .mcpPost
  else if path.map jsToLower = ["mcp", secret].map jsToLower ∧ m = Method.get then .mcpGet
  else if path.map jsToLower = ["mcp", secret].map jsToLower ∧ m = Method.delete then .mcpDelete
  else if path.map jsToLower = ["mcp"] then .resp 404 notFoundBody
  else if path.head?.map jsToLower = some "mcp" ∧ 2 ≤ path.length then .resp 404 notFoundBody
  else if path.map jsToLower = ["health"] ∧ m = Method.get then .healthEndpoint
  else .expressDefault

/-! ## Health endpoints -/

/-- `GET /health` of the bearer-token entry point. -/
def healthResponseBearer (mcpAuthToken : String) (st : McpState) : JsValue :=
  jsObj [("status", jsStr "ok"), ("server", jsStr "dvbase-mcp"),
    ("version", jsStr "1.0.0"),
    ("activeSessions", jsNum (st.sessions.length : Int)),
    ("authEnabled", jsBool (decide (mcpAuthToken ≠ "")))]

/-- `GET /health` of the secret-path entry point. -/
def healthResponseSecretPath (whitelistEnabled : Bool) (st : McpState) :
    JsValue :=
  jsObj [("status", jsStr "ok"), ("server", jsStr "dvbase-mcp"),
    ("version", jsStr "1.1.0"),
    ("activeSessions", jsNum (st.sessions.length : Int)),
    ("security", jsObj [("secretPath", jsBool true),
      ("ipWhitelist", jsBool whitelistEnabled)])]

/-! ## Startup validation of `MCP_SECRET_PATH`

The secret-path entry point checks the configured secret once, at module
load, before `app.listen` ever runs: an empty or too-short secret calls
`process.exit(1)`. -/

/-- The startup check: `error` is a fatal `process.exit(1)` before any
listening socket is opened (the string names the failure), `ok` proceeds to
`app.listen`. -/
def startupSecretPath (mcpSecretPath : String) : Except String Unit :=
  if mcpSecretPath = "" then .error "MCP_SECRET_PATH ist nicht gesetzt"
  else if mcpSecretPath.length < 16 then .error "MCP_SECRET_PATH ist zu kurz"
  else .ok ()

/-- The listening server, when startup validation passed: the route table
under the configured secret.  `none` means the process exited and no request
is ever served. -/
def serverRoutes (mcpSecretPath : String) :
    Option (Method → List String → RouteResult) :=
  match startupSecretPath mcpSecretPath with
  | .error _ => none
  | .ok _ => some (routeRequest mcpSecretPath)

/-! ## String coercion and helpers used by the context store -/

mutual
/-- JS `String(v)` on the modelled values (arrays join their elements with
`","`, where `null` elements print as `""`; plain objects print as
`"[object Object]"`). -/
def jsToString : JsValue → String
  | jsNull => "null"
  | jsBool b => if b then "true" else "false"
  | jsNum n => toString n
  | jsStr s => s
  | jsArr xs => String.intercalate "," (jsToStringElems xs)
  | jsObj _ => "[object Object]"

/-- Stringification of array elements for `jsToString`. -/
def jsToStringElems : List JsValue → List String
  | [] => []
  | jsNull :: rest => "" :: jsToStringElems rest
  | v :: rest => jsToString v :: jsToStringElems rest
end

/-- JS `v || d` (the value when truthy, the default otherwise). -/
def jsOrDefaultV (v : Option JsValue) (d : JsValue) : JsValue :=
  match v with
  | some w => if truthyV w then w else d
  | none => d

/-- Whitespace test for `jsTrim`. -/
def isJsWhitespace (c : Char) : Bool :=
  c = ' ' ∨ c = '\t' ∨ c = '\n' ∨ c = '\r'

/-- JS `s.trim()` (ASCII whitespace). -/
def jsTrim (s : String) : String :=
  String.mk (((s.data.dropWhile isJsWhitespace).reverse.dropWhile
    isJsWhitespace).reverse)

/-- JS `s.includes(sub)`. -/
def jsIncludes (s sub : String) : Bool := decide (sub.data <:+: s.data)

/-! ## Context store (`context-store.ts`)

The upstream call `ninoxClient.getRecords(dokuTableId, { perPage: 250 })` is
an environment parameter: an `Except` value, `.error` when the Ninox API
call rejects.  `Date.now()` is the explicit `now` argument. -/

/-- The `fields` object of one Ninox record. -/
abbrev NinoxFields := List (String × JsValue)

/-- A record returned by `GET /tables/{tid}/records`. -/
structure NinoxRecordV where
  id : Int
  fields : NinoxFields

/-- `this.allRecordsCache`: snapshot plus absolute expiry timestamp. -/
structure CacheEntry where
  data : List NinoxFields
  expires : Nat

/-- The mutable state of a `ContextStore` instance. -/
structure ContextStoreState where
  allRecordsCache : Option CacheEntry

/-- `cacheTTL = 5 * 60 * 1000` milliseconds. -/
def cacheTTL : Nat := 5 * 60 * 1000

/-- `getAllRecords`: serve the cached snapshot while `expires > Date.now()`,
otherwise fetch, project each record to its `fields`, and replace the whole
snapshot with expiry `now + cacheTTL`.  The third component reports whether
an upstream fetch was issued. -/
def getAllRecords (fetchResult : Except String (List NinoxRecordV))
    (now : Nat) (st : ContextStoreState) :
    Except String (List NinoxFields) × ContextStoreState × Bool :=
  match st.allRecordsCache with
  | some c =>
    if now < c.expires then (.ok c.data, st, false)
    else
      match fetchResult with
      | .ok records =>
        let data := records.map (fun r => r.fields)
        (.ok data, ⟨some ⟨data, now + cacheTTL⟩⟩, true)
      | .error e => (.error e, st, true)
  | none =>
    match fetchResult with
    | .ok records =>
      let data := records.map (fun r => r.fields)
      (.ok data, ⟨some ⟨data, now + cacheTTL⟩⟩, true)
    | .error e => (.error e, st, true)

/-- `clearCache`. -/
def clearCache (_st : ContextStoreState) : ContextStoreState := ⟨none⟩

/-- The `ModuleContext` projection. -/
structure ModuleContext where
  moduleName : String
  processDescription : String
  knownIssues : String
  n8nDependencies : String
  customerSpecific : String
  relatedTableIds : List String

/-- `String(fields[k] || "")`. -/
def fieldStr (fields : NinoxFields) (k : String) : String :=
  jsToString (jsOrDefaultV (fields.lookup k) (jsStr ""))

/-- `recordToContext`. -/
def recordToContext (fields : NinoxFields) (fallbackName : String) :
    ModuleContext :=
  { moduleName := jsToString (jsOrDefaultV (fields.lookup "Modul")
      (jsStr fallbackName)),
    processDescription := fieldStr fields "Prozessbeschreibung",
    knownIssues := fieldStr fields "Stolperfallen",
    n8nDependencies := fieldStr fields "N8N_Abhaengigkeiten",
    customerSpecific := fieldStr fields "Kundenspezifisch",
    relatedTableIds := ((jsSplitChar ',' (fieldStr fields "Tabellen_Mapping")).map
      jsTrim).filter (fun s => s ≠ "") }

/-- `getModuleContext`: the `try`/`catch` around the whole body turns any
upstream failure into `null` (`none`), after which the caller cannot tell a
failed fetch from a missing record. -/
def getModuleContext (fetchResult : Except String (List NinoxRecordV))
    (now : Nat) (st : ContextStoreState) (moduleName : String) :
    Option ModuleContext × ContextStoreState :=
  match getAllRecords fetchResult now st with
  | (.error _, st1, _) => (none, st1)
  | (.ok allRecords, st1, _) =>
    match allRecords.find? (fun fields =>
        jsToLower (fieldStr fields "Modul") == jsToLower moduleName) with
    | some record => (some (recordToContext record moduleName), st1)
    | none =>
      match allRecords.find? (fun fields =>
          jsIncludes (jsToLower (fieldStr fields "Modul"))
            (jsToLower moduleName) ||
          jsIncludes (jsToLower moduleName)
            (jsToLower (fieldStr fields "Modul"))) with
      | some partialMatch => (some (recordToContext partialMatch moduleName), st1)
      | none => (none, st1)

/-- `listModules`: the `try`/`catch` turns any upstream failure into `[]`. -/
def listModules (fetchResult : Except String (List NinoxRecordV))
    (now : Nat) (st : ContextStoreState) :
    List String × ContextStoreState :=
  match getAllRecords fetchResult now st with
  | (.error _, st1, _) => ([], st1)
  | (.ok allRecords, st1, _) =>
    ((allRecords.map (fun fields => fieldStr fields "Modul")).filter
      (fun s => s ≠ ""), st1)

/-! ## The `get_context` tool handler (`server.ts`)

A tool handler returns `{ content: [{ type: "text", text }], isError? }`;
only the text and the error flag matter here (`isError` absent = `false`).
Both store methods called by the handler catch upstream failures
internally, so the handler body never throws and its own `try`/`catch`
never produces the error branch for store failures. -/

/-- A tool call result: one text payload plus the `isError` flag. -/
structure ToolResult where
  text : String
  isError : Bool
deriving DecidableEq, Repr

/-- `formatContextAsMarkdown`. -/
def formatContextAsMarkdown (context : ModuleContext) : String :=
  let md := "## Kontextwissen: " ++ context.moduleName ++ "\n\n"
  let md := if context.processDescription ≠ "" then
      md ++ "### Prozessbeschreibung\n" ++ context.processDescription ++ "\n\n"
    else md
  let md := if context.knownIssues ≠ "" then
      md ++ "### Bekannte Stolperfallen\n" ++ context.knownIssues ++ "\n\n"
    else md
  let md := if context.n8nDependencies ≠ "" then
      md ++ "### n8n-Abhängigkeiten\n" ++ context.n8nDependencies ++ "\n\n"
    else md
  let md := if context.customerSpecific ≠ "" then
      md ++ "### Kundenspezifische Anpassungen\n" ++ context.customerSpecific ++ "\n\n"
    else md
  md

/-- The configuration-error text of the `get_context` tool. -/
def contextUnavailableText : String :=
  "Kontextwissen nicht verfügbar: DOKU_TABLE_ID ist nicht konfiguriert. Bitte die Dokumentations-Tabelle in Ninox anlegen und die Table-ID in der .env setzen."

/-- The not-found text of the `get_context` tool. -/
def contextNotFoundText (moduleName : String) (mods : List String) : String :=
  let joined := String.intercalate ", " mods
  "Kein Kontextwissen für Modul \"" ++ moduleName ++
    "\" gefunden. Verfügbare Module mit get_context: " ++
    (if joined = "" then "keine dokumentiert" else joined)

/-- The `get_context` tool handler.  `hasStore` is whether `DOKU_TABLE_ID`
was configured (`contextStore !== null`); `fetchA` and `fetchB` are the
outcomes of the upstream record fetch at the first and the second cache
miss inside the handler (the not-found branch calls `listModules`, which
may fetch again). -/
def getContextTool (hasStore : Bool)
    (fetchA fetchB : Except String (List NinoxRecordV)) (now : Nat)
    (st : ContextStoreState) (moduleName : String) :
    ToolResult × ContextStoreState :=
  if !hasStore then ({ text := contextUnavailableText, isError := true }, st)
  else
    match getModuleContext fetchA now st moduleName with
    | (some context, st1) =>
      ({ text := formatContextAsMarkdown context, isError := false }, st1)
    | (none, st1) =>
      let r := listModules fetchB now st1
      ({ text := contextNotFoundText moduleName r.1, isError := false }, r.2)

/-! ## Helper lemmas -/

theorem toUint32_lt (x : Int) : toUint32 x < 4294967296 := by
  unfold toUint32
  have h1 : 0 ≤ x % 4294967296 := Int.emod_nonneg x (by norm_num)
  have h2 : x % 4294967296 < 4294967296 := Int.emod_lt_of_pos x (by norm_num)
  omega

theorem toInt32_lt (x : Int) : toInt32 x < 2147483648 := by
  unfold toInt32
  have h := toUint32_lt x
  dsimp only
  split <;> omega

/-- The signed/unsigned mismatch behind claim C1: the bitwise-and result is
a signed 32-bit value and can never equal the positive literal
`0xA04F6800`, so the primary CIDR test of `isAnthropicIp` is unsatisfiable
for every input address. -/
theorem anthropic_cidr_never_matches (ip : String) :
    jsAnd (ipToInt ip) anthropicPrimaryMask ≠ anthropicPrimaryNetwork := by
  intro h
  have h1 : jsAnd (ipToInt ip) anthropicPrimaryMask < 2147483648 := toInt32_lt _
  rw [h] at h1
  norm_num [anthropicPrimaryNetwork] at h1

theorem stripBearer_append (X : String) : stripBearer ("Bearer " ++ X) = X := by
  unfold stripBearer
  have hdata : ("Bearer " ++ X).data = "Bearer ".data ++ X.data :=
    String.data_append "Bearer " X
  rw [hdata]
  have hpre : "Bearer ".data.isPrefixOf ("Bearer ".data ++ X.data) = true := by
    rw [List.isPrefixOf_iff_prefix]
    exact List.prefix_append _ _
  rw [if_pos hpre]
  have hdrop : ("Bearer ".data ++ X.data).drop 7 = X.data := by
    have h7 : ("Bearer ".data).length = 7 := by decide
    rw [← h7]
    exact List.drop_left _ _
  rw [hdrop]

theorem stripBearer_of_not_prefixed (T : String)
    (hpre : jsStartsWith T "Bearer " = false) : stripBearer T = T := by
  unfold stripBearer
  unfold jsStartsWith at hpre
  rw [hpre]
  simp

theorem any_filter_ne_self (l : List SessionEntry) (sid : String) :
    (l.filter (fun e => !(e.sid == sid))).any (fun e => e.sid == sid) = false := by
  induction l with
  | nil => rfl
  | cons a t ih =>
    cases ha : (a.sid == sid) with
    | true => simp [List.filter_cons, ha, ih]
    | false => simp [List.filter_cons, ha, ih]

/-! ## Claim theorems -/

/-- Claim C1 (code bug): evaluating the network-origin filter at the
documented inputs.  The address `160.79.104.1` lies inside the documented
primary range `160.79.104.0/21`, yet `isAnthropicIp` rejects it (and
`ipWhitelistMiddleware` answers 403), because the signed bitwise-and result
can never equal the positive network literal.  The remaining conjuncts show
the parts of the claim the code does satisfy: the address just outside the
range is rejected, the five legacy addresses are accepted, IPv6-mapped
addresses are unwrapped, and `127.0.0.1` is accepted exactly when the
allowlist layer is disabled. -/
theorem c1_primary_range_rejected_legacy_accepted :
    isAnthropicIp true "160.79.104.1" = false ∧
    ipWhitelistMiddleware true "160.79.104.1" = some forbiddenStatus ∧
    isAnthropicIp true "160.79.112.1" = false ∧
    isAnthropicIp true "34.162.46.92" = true ∧
    isAnthropicIp true "34.162.102.82" = true ∧
    isAnthropicIp true "34.162.136.91" = true ∧
    isAnthropicIp true "34.162.142.92" = true ∧
    isAnthropicIp true "34.162.183.95" = true ∧
    isAnthropicIp true "::ffff:34.162.46.92" = true ∧
    isAnthropicIp true "::ffff:160.79.104.1" = false ∧
    isAnthropicIp true "127.0.0.1" = false ∧
    isAnthropicIp false "127.0.0.1" = true := by
  decide

/-- Claim C2, counterexample: with the configured token `"Bearer a"`, a
request whose `Authorization` header is exactly the configured token is
rejected with the 403 classification, although the claim states that a
header carrying exactly the token passes the filter. -/
theorem c2_counterexample_literal_token_rejected :
    authMiddleware "Bearer a" (some "Bearer a") = AuthOutcome.forbidden403 ∧
    authMiddleware "Bearer a" (some "Bearer a") ≠ AuthOutcome.allow := by
  decide

/-- Claim C2 as amended: in bearer mode with configured token `T` that does
not itself start with `"Bearer "`, a header `Bearer T` or exactly `T`
passes the filter; an absent header is rejected with the 401
classification; a header `Bearer X` with `X ≠ T` is rejected with the 403
classification; with no token configured every request passes.  The JSON
error code of both rejections is `-32001`. -/
theorem c2_bearer_auth_gate (T : String) (hT : T ≠ "")
    (hpre : jsStartsWith T "Bearer " = false) :
    authMiddleware T (some ("Bearer " ++ T)) = AuthOutcome.allow ∧
    authMiddleware T (some T) = AuthOutcome.allow ∧
    authMiddleware T none = AuthOutcome.unauthorized401 ∧
    (∀ X : String, X ≠ T →
      authMiddleware T (some ("Bearer " ++ X)) = AuthOutcome.forbidden403) ∧
    (∀ H : Option String, authMiddleware "" H = AuthOutcome.allow) ∧
    authHttpResponse AuthOutcome.unauthorized401 = some (401, -32001) ∧
    authHttpResponse AuthOutcome.forbidden403 = some (403, -32001) := by
  refine ⟨?_, ?_, ?_, ?_, ?_, rfl, rfl⟩
  · unfold authMiddleware
    rw [if_neg hT]
    dsimp only
    rw [stripBearer_append]
    simp
  · unfold authMiddleware
    rw [if_neg hT]
    dsimp only
    rw [stripBearer_of_not_prefixed T hpre]
    simp
  · unfold authMiddleware
    rw [if_neg hT]
  · intro X hX
    unfold authMiddleware
    rw [if_neg hT]
    dsimp only
    rw [stripBearer_append]
    simp [hX]
  · intro H
    unfold authMiddleware
    rw [if_pos rfl]

/-- Witness for `c2_bearer_auth_gate` at the token `"sekrit"`. -/
theorem c2_bearer_auth_gate_witness :
    authMiddleware "sekrit" (some ("Bearer " ++ "sekrit")) = AuthOutcome.allow ∧
    authMiddleware "sekrit" none = AuthOutcome.unauthorized401 ∧
    authMiddleware "sekrit" (some ("Bearer " ++ "wrong")) = AuthOutcome.forbidden403 := by
  have h := c2_bearer_auth_gate "sekrit" (by decide) (by decide)
  exact ⟨h.1, h.2.2.1, h.2.2.2.1 "wrong" (by decide)⟩

/-- The guard `sessionId && transports.has(sessionId)` of both
`handleMcpRequest` variants, as a predicate on the state. -/
def sessionKnown (st : McpState) (header : Option String) : Bool :=
  match header with
  | some sid => st.sessions.any (fun e => e.sid == sid)
  | none => false

/-- A valid `initialize` request body. -/
def initializeBody : JsValue :=
  jsObj [("jsonrpc", jsStr "2.0"), ("id", jsNum 1), ("method", jsStr "initialize")]

/-- Claim C4 (code bug): two consecutive initialize POSTs (no session
header) through the bearer-token entry point create two sessions whose
transports are both connected to the *same* shared Tool Registry instance
(`server.connect(transport)` on the single module-level `server`), although
`server.ts` documents that every session must get its own `McpServer`
instance because the SDK permits only one transport binding per server.
The secret-path entry point (`createServer().connect(transport)`) does
allocate distinct registry instances for the same two requests. -/
theorem c4_bearer_entry_shares_one_registry :
    ((handleMcpRequest
        (handleMcpRequest initialMcpState Method.post none (some initializeBody) (some "s1")).2
        Method.post none (some initializeBody) (some "s2")).2.sessions.map
      (fun e => e.sid)) = ["s1", "s2"] ∧
    ((handleMcpRequest
        (handleMcpRequest initialMcpState Method.post none (some initializeBody) (some "s1")).2
        Method.post none (some initializeBody) (some "s2")).2.sessions.map
      (fun e => e.registryId)) = [bearerSharedRegistryId, bearerSharedRegistryId] ∧
    ((handleMcpRequestSecretPath
        (handleMcpRequestSecretPath initialMcpState Method.post none (some initializeBody) (some "s1")).2
        Method.post none (some initializeBody) (some "s2")).2.sessions.map
      (fun e => e.sid)) = ["s1", "s2"] ∧
    ((handleMcpRequestSecretPath
        (handleMcpRequestSecretPath initialMcpState Method.post none (some initializeBody) (some "s1")).2
        Method.post none (some initializeBody) (some "s2")).2.sessions.map
      (fun e => e.registryId)) = [0, 1] := by
  refine ⟨rfl, rfl, rfl, rfl⟩

/-- Claim C5, counterexample: when the upstream record fetch fails during
`get_context` (here with a Ninox API error on an empty cache), the handler
returns the plain not-found text with `isError = false` — not an
error-flagged payload — because `getModuleContext` catches the failure and
returns `null`, which the handler treats as "module not documented". -/
theorem c5_counterexample_fetch_failure_not_error_flagged :
    (getContextTool true (Except.error "Ninox API error: 500 Internal Server Error")
        (Except.error "Ninox API error: 500 Internal Server Error") 0 ⟨none⟩
        "Faktura").1.isError = false ∧
    (getContextTool true (Except.error "Ninox API error: 500 Internal Server Error")
        (Except.error "Ninox API error: 500 Internal Server Error") 0 ⟨none⟩
        "Faktura").1.text = contextNotFoundText "Faktura" [] := by
  exact ⟨rfl, rfl⟩

/-- Claim C5 as amended: the `get_context` handler is a total function into
text results (nothing escapes the tool boundary), and it flags an error
only for the missing-configuration case; an upstream fetch failure is
swallowed inside the context store (`getModuleContext` returns `null`,
`listModules` returns `[]`), so the handler answers with the *non*-error
not-found text built from whatever `listModules` then yields. -/
theorem c5_get_context_error_handling (e : String) (moduleName : String)
    (now : Nat) (fetchB : Except String (List NinoxRecordV))
    (st : ContextStoreState) (hst : st.allRecordsCache = none) :
    (getContextTool true (Except.error e) fetchB now st moduleName).1.isError = false ∧
    (getContextTool true (Except.error e) fetchB now st moduleName).1.text =
      contextNotFoundText moduleName (listModules fetchB now st).1 ∧
    (∀ fetchA moduleName2,
      (getContextTool false fetchA fetchB now st moduleName2).1.isError = true ∧
      (getContextTool false fetchA fetchB now st moduleName2).1.text =
        contextUnavailableText) := by
  obtain ⟨c⟩ := st
  cases hst
  refine ⟨rfl, rfl, ?_⟩
  intro fetchA moduleName2
  exact ⟨rfl, rfl⟩

/-- Witness for `c5_get_context_error_handling`: a failing fetch against a
fresh store. -/
theorem c5_get_context_error_handling_witness :
    (getContextTool true (Except.error "boom") (Except.error "boom") 0 ⟨none⟩
      "Faktura").1.isError = false := by
  exact (c5_get_context_error_handling "boom" "Faktura" 0 (Except.error "boom")
    ⟨none⟩ rfl).1

/-- Claim C6, counterexample: Express routes case-insensitively by default
(neither entry point enables `case sensitive routing`), so a guess that
differs from the configured secret only in letter case — a string `x`
different from the secret — matches the secret route and reaches the
middleware and MCP handler instead of receiving the `404`
`{ error: "Not found" }` catch-all response the claim promises for every
wrong guess. -/
theorem c6_counterexample_case_variant_guess :
    ("A7XK9M3QP2WR8ZF0" : String) ≠ "a7xK9m3Qp2wR8zF0" ∧
    routeRequest "a7xK9m3Qp2wR8zF0" Method.get ["mcp", "A7XK9M3QP2WR8ZF0"] =
      RouteResult.mcpGet ∧
    routeRequest "a7xK9m3Qp2wR8zF0" Method.get ["mcp", "A7XK9M3QP2WR8ZF0"] ≠
      RouteResult.resp 404 notFoundBody := by
  refine ⟨by decide, rfl, ?_⟩
  intro h
  exact RouteResult.noConfusion h

/-- Claim C6 as amended: in secret-path mode, every request to the bare
`/mcp` path and every request to `/mcp/<x>` with `x` not a case-insensitive
match of the configured secret (the lowercased strings differ) receives the
same `404` response with body `{ error: "Not found" }`, independent of the
method and of the wrong guess, so the two responses are indistinguishable;
a guess equal to the secret up to letter case instead matches the secret
route, because Express routing is case-insensitive by default. -/
theorem c6_secret_path_opacity (secret x : String) (m : Method)
    (hx : jsToLower x ≠ jsToLower secret) :
    routeRequest secret m ["mcp", x] = RouteResult.resp 404 notFoundBody ∧
    routeRequest secret m ["mcp"] = RouteResult.resp 404 notFoundBody ∧
    routeRequest secret m ["mcp", x] = routeRequest secret m ["mcp"] := by
  have hpath : (["mcp", x].map jsToLower) ≠ (["mcp", secret].map jsToLower) := by
    simp [hx]
  have h1 : routeRequest secret m ["mcp", x] = RouteResult.resp 404 notFoundBody := by
    unfold routeRequest
    rw [if_neg (fun h => hpath h.1), if_neg (fun h => hpath h.1),
      if_neg (fun h => hpath h.1), if_neg (by simp [jsToLower]),
      if_pos ⟨rfl, Nat.le.refl⟩]
  have h2 : routeRequest secret m ["mcp"] = RouteResult.resp 404 notFoundBody := by
    unfold routeRequest
    have hone : (["mcp"].map jsToLower) ≠ (["mcp", secret].map jsToLower) := by
      simp
    rw [if_neg (fun h => hone h.1), if_neg (fun h => hone h.1),
      if_neg (fun h => hone h.1), if_pos (by rfl)]
  exact ⟨h1, h2, by rw [h1, h2]⟩

/-- Witness for `c6_secret_path_opacity`: a wrong one-segment guess (not a
case variant of the secret) against a concrete secret. -/
theorem c6_secret_path_opacity_witness :
    routeRequest "a7xK9m3Qp2wR8zF0" Method.get ["mcp", "admin"] =
      RouteResult.resp 404 notFoundBody ∧
    routeRequest "a7xK9m3Qp2wR8zF0" Method.get ["mcp"] =
      RouteResult.resp 404 notFoundBody := by
  have h := c6_secret_path_opacity "a7xK9m3Qp2wR8zF0" "admin" Method.get (by decide)
  exact ⟨h.1, h.2.1⟩

/-- Claim C7: a DELETE naming an unknown session (including the second of
two consecutive DELETEs for the same identifier) or carrying no
`mcp-session-id` header at all is answered with `400` and
`{ error: "Invalid or missing session ID" }`, leaving the state untouched;
a DELETE naming a known session first lets the transport handle the
teardown and then removes the entry from the map. -/
theorem c7_delete_unknown_session_yields_400 (st : McpState) (sid : String) :
    handleDeleteRequest st none = (DeleteOutcome.invalidSession, st) ∧
    (st.sessions.any (fun e => e.sid == sid) = false →
      handleDeleteRequest st (some sid) = (DeleteOutcome.invalidSession, st)) ∧
    (st.sessions.any (fun e => e.sid == sid) = true →
      (handleDeleteRequest st (some sid)).1 = DeleteOutcome.handledByTransport sid ∧
      ((handleDeleteRequest st (some sid)).2.sessions.any (fun e => e.sid == sid)) = false ∧
      (handleDeleteRequest (handleDeleteRequest st (some sid)).2 (some sid)).1 =
        DeleteOutcome.invalidSession) ∧
    deleteHttpResponse DeleteOutcome.invalidSession =
      some (400, jsObj [("error", jsStr "Invalid or missing session ID")]) := by
  refine ⟨rfl, ?_, ?_, rfl⟩
  · intro h
    unfold handleDeleteRequest
    dsimp only
    rw [h]
    simp
  · intro h
    have hfilter := any_filter_ne_self st.sessions sid
    have heq : handleDeleteRequest st (some sid) =
        (DeleteOutcome.handledByTransport sid,
         ⟨st.sessions.filter (fun e => !(e.sid == sid)),
          st.nextTransport, st.nextRegistry⟩) := by
      unfold handleDeleteRequest
      dsimp only
      rw [h]
      simp
    refine ⟨by rw [heq], by rw [heq]; exact hfilter, ?_⟩
    rw [heq]
    unfold handleDeleteRequest
    dsimp only
    rw [hfilter]
    simp

/-- Witness for `c7_delete_unknown_session_yields_400`: a single-session
map; deleting the session succeeds, deleting it again yields the invalid
outcome. -/
theorem c7_delete_unknown_session_yields_400_witness :
    (handleDeleteRequest ⟨[⟨"s", 0, 0, true⟩], 1, 1⟩ (some "s")).1 =
      DeleteOutcome.handledByTransport "s" ∧
    (handleDeleteRequest (handleDeleteRequest ⟨[⟨"s", 0, 0, true⟩], 1, 1⟩ (some "s")).2
      (some "s")).1 = DeleteOutcome.invalidSession := by
  have h := (c7_delete_unknown_session_yields_400 ⟨[⟨"s", 0, 0, true⟩], 1, 1⟩ "s").2.2.1
    (by decide)
  exact ⟨h.1, h.2.2⟩

/-- Claim C8: if the configured secret path segment is absent (the empty
default) or shorter than 16 characters, startup fails fatally and no
route table ever exists (no request is served); with a valid secret the
process proceeds to listen and serves the route table under that secret.
The check runs once, at startup — `routeRequest` takes the validated
secret as a fixed configuration value. -/
theorem c8_startup_secret_validation (s : String) :
    (s.length < 16 →
      (∃ msg, startupSecretPath s = Except.error msg) ∧ serverRoutes s = none) ∧
    (16 ≤ s.length →
      startupSecretPath s = Except.ok () ∧
      serverRoutes s = some (routeRequest s)) := by
  constructor
  · intro h
    unfold serverRoutes startupSecretPath
    by_cases hs : s = ""
    · rw [if_pos hs]
      exact ⟨⟨_, rfl⟩, rfl⟩
    · rw [if_neg hs, if_pos h]
      exact ⟨⟨_, rfl⟩, rfl⟩
  · intro h
    unfold serverRoutes startupSecretPath
    have hs : s ≠ "" := by
      intro hempty
      rw [hempty] at h
      simp [String.length] at h
    rw [if_neg hs, if_neg (by omega)]
    exact ⟨rfl, rfl⟩

/-- Witness for `c8_startup_secret_validation`: a 15-character secret is
fatal, a 16-character secret starts the server. -/
theorem c8_startup_secret_validation_witness :
    ((∃ msg, startupSecretPath "a7xK9m3Qp2wR8zF" = Except.error msg) ∧
      serverRoutes "a7xK9m3Qp2wR8zF" = none) ∧
    (startupSecretPath "a7xK9m3Qp2wR8zF0" = Except.ok () ∧
      serverRoutes "a7xK9m3Qp2wR8zF0" = some (routeRequest "a7xK9m3Qp2wR8zF0")) := by
  exact ⟨(c8_startup_secret_validation "a7xK9m3Qp2wR8zF").1 (by decide),
    (c8_startup_secret_validation "a7xK9m3Qp2wR8zF0").2 (by decide)⟩

/-- Claim C9: on an empty cache the first lookup at time `t0` issues an
upstream fetch and stores the snapshot with expiry `t0 + cacheTTL`
(`cacheTTL` = 5 minutes); a second lookup at any `t1` with the expiry still
in the future issues no fetch, returns the cached snapshot unchanged and
leaves the state untouched, whatever the upstream would have answered; a
lookup at `t2` at or past the expiry issues a new fetch and replaces the
whole snapshot atomically with the new data and expiry `t2 + cacheTTL`;
and a lookup after `clearCache` issues a fetch again. -/
theorem c9_cache_freshness_window (recs recs2 : List NinoxRecordV)
    (t0 t1 t2 : Nat) (fetch2 : Except String (List NinoxRecordV))
    (h1 : t1 < t0 + cacheTTL) (h2 : t0 + cacheTTL ≤ t2) :
    (getAllRecords (Except.ok recs) t0 ⟨none⟩).2.2 = true ∧
    (getAllRecords (Except.ok recs) t0 ⟨none⟩).1 =
      Except.ok (recs.map (fun r => r.fields)) ∧
    (getAllRecords (Except.ok recs) t0 ⟨none⟩).2.1 =
      ⟨some ⟨recs.map (fun r => r.fields), t0 + cacheTTL⟩⟩ ∧
    getAllRecords fetch2 t1 (getAllRecords (Except.ok recs) t0 ⟨none⟩).2.1 =
      (Except.ok (recs.map (fun r => r.fields)),
       (getAllRecords (Except.ok recs) t0 ⟨none⟩).2.1, false) ∧
    getAllRecords (Except.ok recs2) t2 (getAllRecords (Except.ok recs) t0 ⟨none⟩).2.1 =
      (Except.ok (recs2.map (fun r => r.fields)),
       ⟨some ⟨recs2.map (fun r => r.fields), t2 + cacheTTL⟩⟩, true) ∧
    (getAllRecords (Except.ok recs2) t1
      (clearCache (getAllRecords (Except.ok recs) t0 ⟨none⟩).2.1)).2.2 = true := by
  refine ⟨rfl, rfl, rfl, ?_, ?_, rfl⟩
  · show getAllRecords fetch2 t1 ⟨some ⟨recs.map (fun r => r.fields), t0 + cacheTTL⟩⟩ = _
    unfold getAllRecords
    dsimp only
    rw [if_pos h1]
  · show getAllRecords (Except.ok recs2) t2
      ⟨some ⟨recs.map (fun r => r.fields), t0 + cacheTTL⟩⟩ = _
    unfold getAllRecords
    dsimp only
    rw [if_neg (by omega)]

/-- Witness for `c9_cache_freshness_window`: one record, first lookup at
time 0, second at time 1 (within the 5-minute window, upstream down),
third at the expiry instant 300000. -/
theorem c9_cache_freshness_window_witness :
    (getAllRecords (Except.ok [⟨1, [("Modul", jsStr "Faktura")]⟩]) 0 ⟨none⟩).2.2 = true ∧
    getAllRecords (Except.error "down") 1
      (getAllRecords (Except.ok [⟨1, [("Modul", jsStr "Faktura")]⟩]) 0 ⟨none⟩).2.1 =
      (Except.ok (([⟨1, [("Modul", jsStr "Faktura")]⟩] : List NinoxRecordV).map
        (fun r => r.fields)),
       (getAllRecords (Except.ok [⟨1, [("Modul", jsStr "Faktura")]⟩]) 0 ⟨none⟩).2.1,
       false) ∧
    (getAllRecords (Except.ok ([] : List NinoxRecordV)) 300000
      (getAllRecords (Except.ok [⟨1, [("Modul", jsStr "Faktura")]⟩]) 0 ⟨none⟩).2.1).2.2 =
      true := by
  have h := c9_cache_freshness_window [⟨1, [("Modul", jsStr "Faktura")]⟩] []
    0 1 300000 (Except.error "down") (by norm_num [cacheTTL]) (by norm_num [cacheTTL])
  exact ⟨h.1, h.2.2.2.1, by rw [h.2.2.2.2.1]⟩

/-- Claim C10: when, after an initialize POST (no known session), the newly
constructed transport reports no session identifier, neither entry point
adds an entry to the session map or installs a close callback (the session
list — including its record of installed `onclose` hooks — is unchanged),
so the `activeSessions` count of the unauthenticated `/health` endpoint is
unchanged by that request. -/
theorem c10_unregistered_when_no_session_id (st : McpState)
    (header : Option String) (body : Option JsValue)
    (hsess : sessionKnown st header = false)
    (hinit : isInitialize body = true) :
    handleMcpRequestSecretPath st Method.post header body none =
      (McpOutcome.initialized none,
       { st with nextTransport := st.nextTransport + 1,
                 nextRegistry := st.nextRegistry + 1 }) ∧
    (handleMcpRequestSecretPath st Method.post header body none).2.sessions =
      st.sessions ∧
    handleMcpRequest st Method.post header body none =
      (McpOutcome.initialized none,
       { st with nextTransport := st.nextTransport + 1 }) ∧
    (handleMcpRequest st Method.post header body none).2.sessions = st.sessions ∧
    healthResponseSecretPath true
      (handleMcpRequestSecretPath st Method.post header body none).2 =
      healthResponseSecretPath true st ∧
    healthResponseBearer ""
      (handleMcpRequest st Method.post header body none).2 =
      healthResponseBearer "" st := by
  have hsecret : handleMcpRequestSecretPath st Method.post header body none =
      (McpOutcome.initialized none,
       { st with nextTransport := st.nextTransport + 1,
                 nextRegistry := st.nextRegistry + 1 }) := by
    unfold handleMcpRequestSecretPath
    cases header with
    | none => simp [hinit]
    | some sid =>
      have : st.sessions.any (fun e => e.sid == sid) = false := hsess
      simp [this, hinit]
  have hbearer : handleMcpRequest st Method.post header body none =
      (McpOutcome.initialized none,
       { st with nextTransport := st.nextTransport + 1 }) := by
    unfold handleMcpRequest
    cases header with
    | none => simp [hinit]
    | some sid =>
      have : st.sessions.any (fun e => e.sid == sid) = false := hsess
      simp [this, hinit]
  refine ⟨hsecret, by rw [hsecret], hbearer, by rw [hbearer], ?_, ?_⟩
  · rw [hsecret]
    rfl
  · rw [hbearer]
    rfl

/-- Witness for `c10_unregistered_when_no_session_id`: an initialize POST
against the empty session map whose transport reports no session id. -/
theorem c10_unregistered_when_no_session_id_witness :
    (handleMcpRequestSecretPath initialMcpState Method.post none
      (some initializeBody) none).2.sessions = initialMcpState.sessions ∧
    (handleMcpRequest initialMcpState Method.post none
      (some initializeBody) none).2.sessions = initialMcpState.sessions := by
  have h := c10_unregistered_when_no_session_id initialMcpState none
    (some initializeBody) rfl rfl
  exact ⟨h.2.1, h.2.2.2.1⟩
